import Mathlib

/-!
Verification development for the netless-app-pdfjs PDF viewer.

The definitions below are a shallow embedding of the TypeScript source:
  * `src/src/pdf-viewer.ts` — `prepare`, `rangeRequest`, the transport choice
    in the `PDFViewer` constructor, `setPageIndex`, `onNewPageIndex`,
    `refresh`, `render_`, `onRenderError`;
  * `src/unnamed/part_004` — `syncView` (throttled viewport publish) and
    `syncViewFromRemote` (remote viewport application).

Asynchronous effects (fetch responses, engine render outcomes, timers) are
made explicit as parameters; machine numbers that the code treats as exact
(page indices, byte counts) are `Int`/`Nat`, and camera/viewport arithmetic
is over `ℚ`.
-/

namespace PDFjs

/-! ### Range transport: `prepare` and `rangeRequest` (pdf-viewer.ts lines 68–96) -/

/-- The outcome of one `fetch` call: a success with a byte payload, or a
non-success response whose body text becomes the error message. -/
inductive FetchResult where
  | ok (data : List Nat)
  | err (body : String)
deriving DecidableEq

def FetchResult.isOk : FetchResult → Bool
  | .ok _ => true
  | .err _ => false

/-- `const MaxRetryCount = 3` in `rangeRequest`. -/
def MaxRetryCount : Nat := 3

/-- The loop body of `rangeRequest`: `for (let retry = 0; retry <= MaxRetryCount;
retry++)` — `remaining` counts the iterations still allowed, `retry` indexes the
attempt used to query the response oracle `fetch`, `lastError` is the body of
the last failed response.  Returns the result together with the number of
`fetch` attempts actually performed. -/
def rangeRequestGo (fetch : Nat → FetchResult) :
    Nat → Nat → String → Except String (List Nat) × Nat
  | _, 0, lastError => (Except.error lastError, 0)
  | retry, remaining + 1, _ =>
    match fetch retry with
    | .ok data => (Except.ok data, 1)
    | .err body =>
      let rest := rangeRequestGo fetch (retry + 1) remaining body
      (rest.1, rest.2 + 1)

/-- `rangeRequest(src, begin, end, signal)` with the network abstracted as a
response oracle `fetch : attempt number → FetchResult`.  The loop runs for
`retry = 0, 1, …, MaxRetryCount`, i.e. `MaxRetryCount + 1` fetch attempts. -/
def rangeRequest (fetch : Nat → FetchResult) : Except String (List Nat) × Nat :=
  rangeRequestGo fetch 0 (MaxRetryCount + 1) ""

/-- JS `Number.parseInt` restricted to what a `content-length` header can hold:
an optional sign followed by leading decimal digits; `none` models `NaN`. -/
def jsParseInt (s : String) : Option Int :=
  match s.data with
  | '-' :: rest =>
    let ds := rest.takeWhile Char.isDigit
    if ds.isEmpty then none
    else some (-(ds.foldl (fun a c => a * 10 + (c.toNat - 48)) 0 : Int))
  | cs =>
    let ds := cs.takeWhile Char.isDigit
    if ds.isEmpty then none
    else some ((ds.foldl (fun a c => a * 10 + (c.toNat - 48)) 0 : Int))

/-- The response to the metadata `HEAD` request seen by `prepare`:
`ok` is `resp.ok`, the two header fields model `resp.headers.get(...)`
(`none` = header absent, i.e. JS `null`). -/
structure HeadResponse where
  ok : Bool
  contentLength : Option String
  acceptRanges : Option String
deriving DecidableEq

/-- `prepare(src)` (pdf-viewer.ts lines 68–77): on a success response, parse
`content-length` (`null`/empty coerced to `'0'`, `NaN` coerced to `0` by
`|| 0`) and test `accept-ranges === 'bytes'`; on a non-success response,
return `[0, false]` without throwing (the embedding is total: the source
function has no throw path). -/
def prepare (resp : HeadResponse) : Int × Bool :=
  if resp.ok then
    let raw := match resp.contentLength with
      | some s => if s = "" then "0" else s
      | none => "0"
    let length := match jsParseInt raw with
      | some v => v
      | none => 0
    (length, resp.acceptRanges == some "bytes")
  else
    (0, false)

/-! ### Transport choice (pdf-viewer.ts lines 184–200) -/

inductive TransportChoice where
  | wholeFile
  | ranged (chunkSize : Nat)
deriving DecidableEq

/-- The branch in the `PDFViewer` constructor:
`if (length < 10485760 || !supportsRange) { getDocument(sourceUrl) } else
{ getDocument({ range: transport, rangeChunkSize: 16384, ... }) }`. -/
def chooseTransport (length : Int) (supportsRange : Bool) : TransportChoice :=
  if length < 10485760 ∨ supportsRange = false then
    TransportChoice.wholeFile
  else
    TransportChoice.ranged 16384

/-! ### Page index state (pdf-viewer.ts `setPageIndex`, `onNewPageIndex`, `refresh`) -/

/-- A JS number as `setPageIndex` can receive it: an exactly-integer value,
an abstract non-integer finite value, `NaN`, or an infinity. -/
inductive JSNumber where
  | int (n : Int)
  | frac
  | nan
  | posInf
  | negInf
deriving DecidableEq

/-- `Number.MAX_SAFE_INTEGER`. -/
def maxSafeInteger : Nat := 9007199254740991

/-- `Number.isSafeInteger`: true exactly on integer values of magnitude at
most `2^53 - 1`. -/
def isSafeInteger : JSNumber → Bool
  | .int n => n.natAbs ≤ maxSafeInteger
  | _ => false

def JSNumber.intValue : JSNumber → Int
  | .int n => n
  | _ => 0

/-- The fields of a `PDFViewer` that `setPageIndex`/`onNewPageIndex`/`refresh`
read and write.  `pdf` is `some numPages` once the document is loaded, `none`
before (`this.pdf === null`).  `renderRequests` records, in order, the page
numbers that `refresh` handed to the render queue. -/
structure ViewerState where
  pdf : Option Nat
  pageIndex : Int
  pageNumberInput : String
  renderRequests : List Int
  destroyed : Bool
deriving DecidableEq

/-- `numPages()` = `this.pdf?.numPages || 0`. -/
def numPages (s : ViewerState) : Nat :=
  s.pdf.getD 0

/-- `refresh()` (pdf-viewer.ts lines 415–429): no-op when destroyed; when no
document is loaded it only clears the canvas; otherwise it submits a render of
page `pageIndex + 1` to the queue. -/
def refresh (s : ViewerState) : ViewerState :=
  if s.destroyed then s
  else
    match s.pdf with
    | none => s
    | some _ => { s with renderRequests := s.renderRequests ++ [s.pageIndex + 1] }

/-- `setPageIndex(pageIndex)` (pdf-viewer.ts lines 366–372): guarded only by
`Number.isSafeInteger`; on a safe integer it stores the index, echoes
`String(pageIndex + 1)` into the page-number input, and calls `refresh()`;
otherwise it does nothing. -/
def setPageIndex (p : JSNumber) (s : ViewerState) : ViewerState :=
  if isSafeInteger p then
    refresh { s with pageIndex := p.intValue,
                     pageNumberInput := toString (p.intValue + 1) }
  else s

/-- `onNewPageIndex(index, origin)` (pdf-viewer.ts lines 374–378), restricted
to integer arguments (every claim exercises it on integers):
`if (0 <= index && index < (this.pdf?.numPages || 0)) this.setPageIndex(index)`. -/
def onNewPageIndex (index : Int) (s : ViewerState) : ViewerState :=
  if 0 ≤ index ∧ index < (numPages s : Int) then
    setPageIndex (JSNumber.int index) s
  else s

/-! ### Render lane (pdf-viewer.ts `render`, `render_`, lines 513–536)

`render()` pushes `render_` onto `this.rendering = seq()`.  `seq()` comes from
the external `@wopjs/async-seq` package (not part of this repository); its
lane semantics are modelled from the spec: calls are executed one at a time,
in submission order, each awaited to settlement before the next starts, and a
rejected call does not stop the lane.  Consequently, when one `render_` body
runs, the previous body has settled: the `RenderTask` left in
`lastRenderingTask` (if any) has itself settled — it is non-null only when
the previous `await task.promise` rejected, which skips the
`lastRenderingTask = null` line. -/

/-- How the engine-level `page.render(...)` task of one submission settles. -/
inductive EngineOutcome where
  | success
  | failure (msg : String)
deriving DecidableEq

/-- One `render(pageNumber, …)` submission together with how its engine task
would settle if started. -/
structure Submission where
  pageNumber : Int
  outcome : EngineOutcome
deriving DecidableEq

/-- Errors `render_` can reject with. -/
inductive RenderError where
  | notLoaded
  | invalidPage (numPages : Nat) (got : Int)
  | engine (msg : String)
deriving DecidableEq

/-- Observable lane state: `lastTask` models `this.lastRenderingTask`
(page number and whether that task has settled); `paints` records, in order,
the pages whose engine task ran to successful completion (i.e. whose bitmap
was fully committed to the surface); `cancels` records every `cancel()` call
on a previous task, with the settled flag the target had at that moment. -/
structure RenderLaneState where
  lastTask : Option (Int × Bool)
  paints : List Int
  cancels : List (Int × Bool)
deriving DecidableEq

def laneInit : RenderLaneState := ⟨none, [], []⟩

/-- One serialized execution of `render_(pageNumber, …)`:
reject with `notLoaded` when `this.pdf` is null; validate
`1 <= pageNumber && pageNumber <= pdf.numPages` else reject with the
out-of-range error; then `this.lastRenderingTask?.cancel()`, start the engine
task, await it (on success the paint commits and the handle is cleared; on
rejection the handle keeps the settled task). -/
def render_ (pdf : Option Nat) (sub : Submission) (s : RenderLaneState) :
    RenderLaneState × Except RenderError Unit :=
  match pdf with
  | none => (s, Except.error RenderError.notLoaded)
  | some n =>
    if 1 ≤ sub.pageNumber ∧ sub.pageNumber ≤ (n : Int) then
      let cancels := match s.lastTask with
        | some t => s.cancels ++ [t]
        | none => s.cancels
      match sub.outcome with
      | .success =>
        ({ lastTask := none,
           paints := s.paints ++ [sub.pageNumber],
           cancels := cancels }, Except.ok ())
      | .failure msg =>
        ({ lastTask := some (sub.pageNumber, true),
           paints := s.paints,
           cancels := cancels }, Except.error (RenderError.engine msg))
    else
      (s, Except.error (RenderError.invalidPage n sub.pageNumber))

/-- The lane processing a list of submissions in FIFO order, each settled
before the next starts; a rejected submission does not stop the lane. -/
def runLane (pdf : Option Nat) (subs : List Submission) (s : RenderLaneState) :
    RenderLaneState × List (Except RenderError Unit) :=
  match subs with
  | [] => (s, [])
  | sub :: rest =>
    let step := render_ pdf sub s
    let next := runLane pdf rest step.1
    (next.1, step.2 :: next.2)

/-- The pages that a run of the lane paints: the valid submissions whose
engine task succeeds, in submission order. -/
def paintedOf (pdf : Option Nat) (subs : List Submission) : List Int :=
  match pdf with
  | none => []
  | some n =>
    (subs.filter fun sub =>
      decide (1 ≤ sub.pageNumber ∧ sub.pageNumber ≤ (n : Int))
        && (sub.outcome == EngineOutcome.success)).map Submission.pageNumber

/-- Lane invariant: any task left in `lastTask` has settled, and every
recorded `cancel()` targeted a task that had already settled. -/
def laneInv (s : RenderLaneState) : Prop :=
  (∀ t, s.lastTask = some t → t.2 = true) ∧ ∀ c ∈ s.cancels, c.2 = true

/-! ### Render error filtering (pdf-viewer.ts `onRenderError`, lines 472–477) -/

/-- List-level substring test used to model JS `String.prototype.includes`. -/
def leadMatch : List Char → List Char → Bool
  | [], _ => true
  | _ :: _, [] => false
  | a :: as, b :: bs => a == b && leadMatch as bs

def hasSubList (pat : List Char) : List Char → Bool
  | [] => leadMatch pat []
  | c :: rest => leadMatch pat (c :: rest) || hasSubList pat rest

/-- `('' + reason).includes(pat)` with `reason` already coerced to a string. -/
def jsIncludes (s pat : String) : Bool :=
  hasSubList pat.data s.data

/-- A render failure that identifies itself as a rendering cancellation. -/
def cancelFlavored (reason : String) : Bool :=
  jsIncludes reason "RenderingCancelledException"

/-- `onRenderError(reason)`: returns the reason forwarded to the
`options.onRenderError` callback, or `none` when the failure is
cancellation-flavored and swallowed by the early return. -/
def onRenderError (reason : String) : Option String :=
  if cancelFlavored reason then none else some reason

/-! ### Viewport synchronization (part_004, `syncView` lines 201–222 and
`syncViewFromRemote` lines 224–232)

Camera and size arithmetic is over `ℚ` (the source computes with JS numbers;
the claims are about the exact values of the formulas). -/

structure Camera where
  centerX : ℚ
  centerY : ℚ
  scale : ℚ
deriving DecidableEq

structure Size where
  width : ℚ
  height : ℚ
deriving DecidableEq

/-- The replicated `view` record `{ uid, originX, originY, width, height }`. -/
structure ViewRect where
  uid : String
  originX : ℚ
  originY : ℚ
  width : ℚ
  height : ℚ
deriving DecidableEq

/-- The rectangle `syncView` computes and captures when it schedules a
publish:
`fixedW = Math.min(size.width, size.height * width / height)`,
`fixedH = Math.min(size.height, size.width * height / width)`,
`w = fixedW / camera.scale`, `h = fixedH / camera.scale`,
`x = camera.centerX - w / 2`, `y = camera.centerY - h / 2`,
published as `{ uid: me, originX: x, originY: y, width: w, height: h }`. -/
def computeViewRect (me : String) (intrinsic viewSize : Size) (cam : Camera) :
    ViewRect :=
  let fixedW := min viewSize.width (viewSize.height * intrinsic.width / intrinsic.height)
  let fixedH := min viewSize.height (viewSize.width * intrinsic.height / intrinsic.width)
  let w := fixedW / cam.scale
  let h := fixedH / cam.scale
  ⟨me, cam.centerX - w / 2, cam.centerY - h / 2, w, h⟩

/-- The observable state of the throttle: `scheduled` is `some r` exactly when
`throttleSyncView > 0`, holding the rectangle the pending timeout closure
captured; `published` records the `view$$.setState` calls in order. -/
structure SyncViewState where
  scheduled : Option ViewRect
  published : List ViewRect
deriving DecidableEq

/-- One call of `syncView` on a local camera change: early return while a
publish is scheduled (`if (throttleSyncView > 0) return`); otherwise, when the
intrinsic size is non-degenerate and the peer is writable, compute the
rectangle from the camera *now* and schedule a timeout that will publish that
captured rectangle. -/
def syncView (me : String) (writable : Bool) (intrinsic viewSize : Size)
    (cam : Camera) (s : SyncViewState) : SyncViewState :=
  match s.scheduled with
  | some _ => s
  | none =>
    if intrinsic.width ≠ 0 ∧ intrinsic.height ≠ 0 ∧ writable = true then
      { s with scheduled := some (computeViewRect me intrinsic viewSize cam) }
    else s

/-- The scheduled timeout firing (the 50 ms window closing): reset
`throttleSyncView` to 0 and publish the captured rectangle. -/
def timerFire (s : SyncViewState) : SyncViewState :=
  match s.scheduled with
  | some v => ⟨none, s.published ++ [v]⟩
  | none => s

/-- One whole throttle window: a sequence of local camera changes (each
calling `syncView`) followed by the timeout firing. -/
def windowRun (me : String) (writable : Bool) (intrinsic viewSize : Size)
    (cams : List Camera) (s : SyncViewState) : SyncViewState :=
  timerFire (cams.foldl (fun st c => syncView me writable intrinsic viewSize c st) s)

/-- The argument record of `view.moveCameraToContain`. -/
structure ContainRect where
  originX : ℚ
  originY : ℚ
  width : ℚ
  height : ℚ
deriving DecidableEq

/-- `syncViewFromRemote(force, animate)` (part_004 lines 224–232), with the
replicated state passed explicitly: returns the rectangle handed to
`view.moveCameraToContain`, or `none` when the guard
`(force || uid !== me) && width > 0 && height > 0` rejects the update. -/
def syncViewFromRemote (me : String) (st : ViewRect) (force : Bool) :
    Option ContainRect :=
  if (force = true ∨ st.uid ≠ me) ∧ 0 < st.width ∧ 0 < st.height then
    some ⟨st.originX, st.originY, st.width, st.height⟩
  else none

/-! ### Concrete response oracles used in counterexamples and witnesses -/

/-- A range source whose responses are all non-success. -/
def allFail : Nat → FetchResult := fun _ => FetchResult.err "boom"

/-- A range source that fails twice and then succeeds with bytes `[7]`. -/
def failTwice : Nat → FetchResult :=
  fun i => if i < 2 then FetchResult.err "x" else FetchResult.ok [7]

/-! ### C1 — retry count of `rangeRequest` -/

lemma rangeRequestGo_allFail (fetch : Nat → FetchResult) :
    ∀ (remaining retry : Nat) (lastError : String),
      (∀ i, retry ≤ i → i < retry + remaining → (fetch i).isOk = false) →
      (∃ e, (rangeRequestGo fetch retry remaining lastError).1 = Except.error e) ∧
        (rangeRequestGo fetch retry remaining lastError).2 = remaining := by
  intro remaining
  induction remaining with
  | zero =>
    intro retry lastError _
    exact ⟨⟨lastError, rfl⟩, rfl⟩
  | succ r ih =>
    intro retry lastError h
    have hr : (fetch retry).isOk = false := h retry (Nat.le_refl _) (by omega)
    cases hfr : fetch retry with
    | ok data => rw [hfr] at hr; simp [FetchResult.isOk] at hr
    | err body =>
      have hrest := ih (retry + 1) body (fun i h1 h2 => h i (by omega) (by omega))
      simp only [rangeRequestGo, hfr]
      exact ⟨hrest.1, by rw [hrest.2]⟩

lemma rangeRequestGo_firstOk (fetch : Nat → FetchResult) :
    ∀ (k remaining retry : Nat) (lastError : String) (data : List Nat),
      k < remaining → fetch (retry + k) = FetchResult.ok data →
      (∀ j, j < k → (fetch (retry + j)).isOk = false) →
      rangeRequestGo fetch retry remaining lastError = (Except.ok data, k + 1) := by
  intro k
  induction k with
  | zero =>
    intro remaining retry lastError data hk hok _
    cases remaining with
    | zero => omega
    | succ r =>
      rw [Nat.add_zero] at hok
      simp only [rangeRequestGo, hok]
  | succ k ih =>
    intro remaining retry lastError data hk hok hj
    cases remaining with
    | zero => omega
    | succ r =>
      have h0 : (fetch retry).isOk = false := by
        have := hj 0 (by omega)
        simpa using this
      cases hfr : fetch retry with
      | ok d => rw [hfr] at h0; simp [FetchResult.isOk] at h0
      | err body =>
        have hok2 : fetch (retry + 1 + k) = FetchResult.ok data := by
          have : retry + 1 + k = retry + (k + 1) := by omega
          rw [this]; exact hok
        have hj2 : ∀ j, j < k → (fetch (retry + 1 + j)).isOk = false := by
          intro j hjk
          have : retry + 1 + j = retry + (j + 1) := by omega
          rw [this]; exact hj (j + 1) (by omega)
        have hrest := ih r (retry + 1) body data (by omega) hok2 hj2
        simp only [rangeRequestGo, hfr, hrest]

/-- C1 counterexample: with a source whose responses are all non-success,
`rangeRequest` performs 4 fetch attempts before propagating the failure,
not the 3 the claim states (`for (retry = 0; retry <= MaxRetryCount; retry++)`
with `MaxRetryCount = 3` runs the initial attempt plus 3 retries). -/
theorem rangeRequest_threeAttempts_cex :
    rangeRequest allFail = (Except.error "boom", 4) ∧
      ¬ (rangeRequest allFail).2 = 3 := by
  refine ⟨rfl, ?_⟩
  decide

/-- C1 (amended): for every range fetch whose responses are all non-success,
`rangeRequest` performs exactly 4 attempts (1 initial + 3 retries) and then
propagates the failure; if some attempt within those 4 succeeds (all earlier
ones having failed), it returns that attempt's bytes, having performed exactly
that many attempts. -/
theorem rangeRequest_retries (fetch : Nat → FetchResult) :
    ((∀ i, i ≤ MaxRetryCount → (fetch i).isOk = false) →
        (∃ e, (rangeRequest fetch).1 = Except.error e) ∧
          (rangeRequest fetch).2 = MaxRetryCount + 1)
    ∧ (∀ i data, i ≤ MaxRetryCount → fetch i = FetchResult.ok data →
        (∀ j, j < i → (fetch j).isOk = false) →
        rangeRequest fetch = (Except.ok data, i + 1)) := by
  constructor
  · intro h
    exact rangeRequestGo_allFail fetch (MaxRetryCount + 1) 0 ""
      (fun i _ h2 => h i (by unfold MaxRetryCount at *; omega))
  · intro i data hi hok hj
    exact rangeRequestGo_firstOk fetch i (MaxRetryCount + 1) 0 "" data
      (by unfold MaxRetryCount at *; omega) (by simpa using hok)
      (fun j hji => by simpa using hj j hji)

/-- Witness for C1's amended theorem: a source that fails twice then succeeds
returns the successful bytes after exactly 3 attempts. -/
theorem rangeRequest_retries_witness :
    rangeRequest failTwice = (Except.ok [7], 3) :=
  (rangeRequest_retries failTwice).2 2 [7] (by decide) (by decide)
    (fun j hj => by interval_cases j <;> decide)

/-! ### C2 / C10 — page index -/

/-- A freshly loaded viewer over a 3-page document, at page index 0. -/
def s3 : ViewerState := ⟨some 3, 0, "1", [], false⟩

lemma refresh_pdf (s : ViewerState) : (refresh s).pdf = s.pdf := by
  unfold refresh
  split
  · rfl
  · cases hp : s.pdf <;> simp [hp]

lemma refresh_pageIndex (s : ViewerState) : (refresh s).pageIndex = s.pageIndex := by
  unfold refresh
  split
  · rfl
  · cases hp : s.pdf <;> simp [hp]

lemma setPageIndex_pdf (p : JSNumber) (s : ViewerState) :
    (setPageIndex p s).pdf = s.pdf := by
  unfold setPageIndex
  split
  · rw [refresh_pdf]
  · rfl

lemma setPageIndex_numPages (p : JSNumber) (s : ViewerState) :
    numPages (setPageIndex p s) = numPages s := by
  unfold numPages
  rw [setPageIndex_pdf]

lemma setPageIndex_pageIndex (p : JSNumber) (s : ViewerState) :
    (setPageIndex p s).pageIndex
      = if isSafeInteger p then p.intValue else s.pageIndex := by
  unfold setPageIndex
  split
  · rw [refresh_pageIndex]
  · rfl

/-- C2 counterexample: on a viewer whose document has 3 pages,
`setPageIndex(5)` does not leave the index at its previous valid value 0 —
it stores 5, outside `[0, 3)`: the only guard in `setPageIndex` is
`Number.isSafeInteger`, not a bounds check. -/
theorem setPageIndex_invariant_cex :
    (setPageIndex (JSNumber.int 5) s3).pageIndex = 5 ∧
      ¬ (setPageIndex (JSNumber.int 5) s3).pageIndex < (numPages s3 : Int) ∧
      s3.pageIndex = 0 ∧ numPages s3 = 3 := by
  decide

/-- C2 (amended): the bounds check lives in `onNewPageIndex`, not
`setPageIndex`: every out-of-range request through `onNewPageIndex`
(in particular index 5 on a 3-page document) is dropped and leaves the state
unchanged, and `onNewPageIndex` preserves the invariant
`0 ≤ pageIndex < pageCount`; `setPageIndex` itself applies any safe integer
without a bounds check. -/
theorem onNewPageIndex_bounds (s : ViewerState) (i : Int) :
    (¬ (0 ≤ i ∧ i < (numPages s : Int)) → onNewPageIndex i s = s)
    ∧ (0 ≤ s.pageIndex ∧ s.pageIndex < (numPages s : Int) →
        0 ≤ (onNewPageIndex i s).pageIndex ∧
          (onNewPageIndex i s).pageIndex < (numPages (onNewPageIndex i s) : Int)) := by
  constructor
  · intro h
    unfold onNewPageIndex
    rw [if_neg h]
  · intro hinv
    unfold onNewPageIndex
    split
    · next hg =>
      rw [setPageIndex_pageIndex, setPageIndex_numPages]
      split
      · next hs => simpa [JSNumber.intValue] using hg
      · exact hinv
    · exact hinv

/-- Witness for C2's amended theorem: `onNewPageIndex 5` on the 3-page viewer
`s3` leaves the state unchanged, and from the valid state `s3` the invariant
is preserved for the request 5. -/
theorem onNewPageIndex_bounds_witness :
    onNewPageIndex 5 s3 = s3 ∧
      (0 ≤ (onNewPageIndex 1 s3).pageIndex ∧
        (onNewPageIndex 1 s3).pageIndex < (numPages (onNewPageIndex 1 s3) : Int)) :=
  ⟨(onNewPageIndex_bounds s3 5).1 (by decide),
   (onNewPageIndex_bounds s3 1).2 (by decide)⟩

/-- C10: for every argument that is not a safe integer (`NaN`, infinities,
fractional or unsafe-magnitude values), `setPageIndex` is a complete no-op:
the whole viewer state — stored page index, page-number input echo, and the
render-request log — is unchanged. -/
theorem setPageIndex_unsafe_noop (p : JSNumber) (s : ViewerState)
    (h : isSafeInteger p = false) : setPageIndex p s = s := by
  unfold setPageIndex
  rw [h]
  rfl

/-- Witness for C10: `NaN`, a fractional value, `+Infinity`, `-Infinity`, and
an unsafe-magnitude integer (`2^53`) all leave the viewer `s3` unchanged. -/
theorem setPageIndex_unsafe_noop_witness :
    setPageIndex JSNumber.nan s3 = s3 ∧
      setPageIndex JSNumber.frac s3 = s3 ∧
      setPageIndex JSNumber.posInf s3 = s3 ∧
      setPageIndex JSNumber.negInf s3 = s3 ∧
      setPageIndex (JSNumber.int 9007199254740992) s3 = s3 :=
  ⟨setPageIndex_unsafe_noop _ _ (by decide),
   setPageIndex_unsafe_noop _ _ (by decide),
   setPageIndex_unsafe_noop _ _ (by decide),
   setPageIndex_unsafe_noop _ _ (by decide),
   setPageIndex_unsafe_noop _ _ (by decide)⟩

/-! ### C4 — transport choice policy -/

/-- C4: the whole-file fetch path is chosen if and only if the probed length
is below 10 MiB (10485760 bytes) or range support is absent; every other case
opens the range path with chunk granularity 16384; in particular length 9 MiB
always takes the whole-file path, and 50 MiB takes the range path exactly when
ranges are supported. -/
theorem chooseTransport_policy :
    (∀ (length : Int) (supportsRange : Bool),
        chooseTransport length supportsRange = TransportChoice.wholeFile
          ↔ (length < 10485760 ∨ supportsRange = false))
    ∧ (∀ (length : Int) (supportsRange : Bool),
        chooseTransport length supportsRange ≠ TransportChoice.wholeFile →
          chooseTransport length supportsRange = TransportChoice.ranged 16384)
    ∧ chooseTransport 9437184 true = TransportChoice.wholeFile
    ∧ chooseTransport 9437184 false = TransportChoice.wholeFile
    ∧ chooseTransport 52428800 true = TransportChoice.ranged 16384
    ∧ chooseTransport 52428800 false = TransportChoice.wholeFile := by
  refine ⟨?_, ?_, by decide, by decide, by decide, by decide⟩
  · intro length supportsRange
    unfold chooseTransport
    split
    · next h => simpa using h
    · next h => simpa using h
  · intro length supportsRange h
    unfold chooseTransport at *
    by_cases hc : length < 10485760 ∨ supportsRange = false
    · rw [if_pos hc] at h
      exact absurd rfl h
    · rw [if_neg hc]

/-- Witness for C4: the 50 MiB / range-supported case goes through the
non-whole-file branch of the theorem. -/
theorem chooseTransport_policy_witness :
    chooseTransport 52428800 true = TransportChoice.ranged 16384 :=
  chooseTransport_policy.2.1 52428800 true (by decide)

/-! ### C6 — `prepare` on a non-success probe -/

/-- C6: for every metadata probe that receives a non-success HTTP response,
`prepare` returns length 0 and `supportsRange = false` (the embedding is a
total function: the source has no throw on this path), and that pair selects
the whole-file fetch path. -/
theorem prepare_nonSuccess (resp : HeadResponse) (h : resp.ok = false) :
    prepare resp = (0, false) ∧
      chooseTransport (prepare resp).1 (prepare resp).2 = TransportChoice.wholeFile := by
  have hp : prepare resp = (0, false) := by
    unfold prepare
    rw [h]
    rfl
  refine ⟨hp, ?_⟩
  rw [hp]
  decide

/-- Witness for C6: a concrete non-success probe response — even one carrying
a `content-length` and `accept-ranges: bytes` header — yields `(0, false)`. -/
theorem prepare_nonSuccess_witness :
    prepare ⟨false, some "123456789", some "bytes"⟩ = (0, false) ∧
      chooseTransport (prepare ⟨false, some "123456789", some "bytes"⟩).1
          (prepare ⟨false, some "123456789", some "bytes"⟩).2
        = TransportChoice.wholeFile :=
  prepare_nonSuccess ⟨false, some "123456789", some "bytes"⟩ rfl

/-! ### C7 — out-of-range render leaves the lane usable -/

/-- C7: for every page number outside `[1, pageCount]`, a direct render call
fails with the out-of-range error, and the lane remains usable: a subsequent
render with a valid page number still executes normally (its engine task runs
and paints). -/
theorem renderOutOfRange_laneUsable (n : Nat) (p q : Int)
    (hp : ¬ (1 ≤ p ∧ p ≤ (n : Int))) (hq : 1 ≤ q ∧ q ≤ (n : Int)) :
    (runLane (some n) [⟨p, EngineOutcome.success⟩, ⟨q, EngineOutcome.success⟩] laneInit).2
        = [Except.error (RenderError.invalidPage n p), Except.ok ()]
    ∧ (runLane (some n)
          [⟨p, EngineOutcome.success⟩, ⟨q, EngineOutcome.success⟩] laneInit).1.paints
        = [q] := by
  constructor <;> simp [runLane, render_, laneInit, hp, hq]

/-- Witness for C7: on a 3-page document, rendering page 5 fails with the
out-of-range error and a following render of page 1 succeeds and paints. -/
theorem renderOutOfRange_laneUsable_witness :
    (runLane (some 3) [⟨5, EngineOutcome.success⟩, ⟨1, EngineOutcome.success⟩] laneInit).2
        = [Except.error (RenderError.invalidPage 3 5), Except.ok ()]
    ∧ (runLane (some 3)
          [⟨5, EngineOutcome.success⟩, ⟨1, EngineOutcome.success⟩] laneInit).1.paints
        = [1] :=
  renderOutOfRange_laneUsable 3 5 1 (by decide) (by decide)

/-! ### C5 — render serialization vs. in-flight cancellation -/

lemma paintedOf_cons (n : Nat) (sub : Submission) (rest : List Submission) :
    paintedOf (some n) (sub :: rest)
      = (if (1 ≤ sub.pageNumber ∧ sub.pageNumber ≤ (n : Int))
              ∧ sub.outcome = EngineOutcome.success
         then [sub.pageNumber] else []) ++ paintedOf (some n) rest := by
  unfold paintedOf
  by_cases h1 : 1 ≤ sub.pageNumber ∧ sub.pageNumber ≤ (n : Int) <;>
    by_cases h2 : sub.outcome = EngineOutcome.success <;>
      simp [List.filter_cons, h1, h2]

lemma laneInv_init : laneInv laneInit := by
  constructor
  · intro t ht
    cases ht
  · intro c hc
    cases hc

lemma laneInv_render (pdf : Option Nat) (sub : Submission) (s : RenderLaneState)
    (h : laneInv s) : laneInv (render_ pdf sub s).1 := by
  obtain ⟨hTask, hCancels⟩ := h
  unfold render_
  cases pdf with
  | none => exact ⟨hTask, hCancels⟩
  | some n =>
    dsimp only
    by_cases h1 : 1 ≤ sub.pageNumber ∧ sub.pageNumber ≤ (n : Int)
    · rw [if_pos h1]
      have hC : ∀ c ∈ (match s.lastTask with
          | some t => s.cancels ++ [t]
          | none => s.cancels), c.2 = true := by
        cases ht : s.lastTask with
        | none => simpa using hCancels
        | some t =>
          intro c hc
          rcases List.mem_append.mp hc with hc1 | hc2
          · exact hCancels c hc1
          · rw [List.mem_singleton.mp hc2]
            exact hTask t ht
      cases sub.outcome with
      | success => exact ⟨(fun t ht => nomatch ht), hC⟩
      | failure msg =>
        refine ⟨?_, hC⟩
        intro t ht
        cases ht
        rfl
    · rw [if_neg h1]
      exact ⟨hTask, hCancels⟩

lemma render_paints (n : Nat) (sub : Submission) (s : RenderLaneState) :
    (render_ (some n) sub s).1.paints
      = s.paints ++
        (if (1 ≤ sub.pageNumber ∧ sub.pageNumber ≤ (n : Int))
              ∧ sub.outcome = EngineOutcome.success
         then [sub.pageNumber] else []) := by
  unfold render_
  dsimp only
  by_cases h1 : 1 ≤ sub.pageNumber ∧ sub.pageNumber ≤ (n : Int)
  · rw [if_pos h1]
    cases ho : sub.outcome <;> simp [h1, ho]
  · rw [if_neg h1]
    simp [h1]

/-- C5 counterexample: with two rapid successful submissions of pages 1 then 2
against the same surface, the result of the older submission *is* painted
(the paint log is `[1, 2]`, not `[2]`), and no engine task is ever cancelled:
the lane serializes the two renders, so the older task settles — and commits
its paint — before the newer render starts. -/
theorem renderLastWins_cex :
    (runLane (some 3) [⟨1, EngineOutcome.success⟩, ⟨2, EngineOutcome.success⟩]
        laneInit).1.paints = [1, 2]
    ∧ ¬ (runLane (some 3) [⟨1, EngineOutcome.success⟩, ⟨2, EngineOutcome.success⟩]
        laneInit).1.paints = [2]
    ∧ (runLane (some 3) [⟨1, EngineOutcome.success⟩, ⟨2, EngineOutcome.success⟩]
        laneInit).1.cancels = [] := by
  decide

/-- C5 (amended): the lane serializes renders in submission order, so the
surface's paints are exactly the valid successful submissions in that order —
the most recently submitted render's paint is the final one and an older
render's completion never paints over a newer result; however earlier
submissions do paint (transiently) before being overwritten, and the
`lastRenderingTask?.cancel()` call never cancels an unsettled engine task:
every recorded cancellation targets a task that had already settled. -/
theorem renderLane_serialized (pdf : Option Nat) (subs : List Submission)
    (s0 : RenderLaneState) (h : laneInv s0) :
    (runLane pdf subs s0).1.paints = s0.paints ++ paintedOf pdf subs
    ∧ laneInv (runLane pdf subs s0).1 := by
  induction subs generalizing s0 with
  | nil =>
    cases pdf <;> exact ⟨by simp [runLane, paintedOf], h⟩
  | cons sub rest ih =>
    have hstep := laneInv_render pdf sub s0 h
    have hrest := ih (render_ pdf sub s0).1 hstep
    refine ⟨?_, by simpa [runLane] using hrest.2⟩
    cases pdf with
    | none =>
      have hnone : (render_ none sub s0).1 = s0 := rfl
      simp only [runLane]
      rw [hrest.1, hnone]
      simp [paintedOf]
    | some n =>
      simp only [runLane]
      rw [hrest.1, render_paints, paintedOf_cons, List.append_assoc]

/-- Witness for C5's amended theorem: a single valid successful submission on
a fresh lane paints exactly its page and preserves the lane invariant. -/
theorem renderLane_serialized_witness :
    (runLane (some 3) [⟨2, EngineOutcome.success⟩] laneInit).1.paints
        = laneInit.paints ++ paintedOf (some 3) [⟨2, EngineOutcome.success⟩]
    ∧ laneInv (runLane (some 3) [⟨2, EngineOutcome.success⟩] laneInit).1 :=
  renderLane_serialized (some 3) [⟨2, EngineOutcome.success⟩] laneInit laneInv_init

/-! ### C8 — cancellation-flavored render failures are swallowed -/

/-- C8: every render failure whose string form identifies itself as a
rendering cancellation is swallowed (never forwarded to the single
`onRenderError` callback); every other failure is forwarded to that callback;
and a rejected render never stops the lane (every submission gets a result). -/
theorem onRenderError_policy :
    (∀ reason, cancelFlavored reason = true → onRenderError reason = none)
    ∧ (∀ reason, cancelFlavored reason = false → onRenderError reason = some reason)
    ∧ (∀ (pdf : Option Nat) (subs : List Submission) (s0 : RenderLaneState),
        ((runLane pdf subs s0).2).length = subs.length) := by
  refine ⟨?_, ?_, ?_⟩
  · intro reason h
    simp [onRenderError, h]
  · intro reason h
    simp [onRenderError, h]
  · intro pdf subs
    induction subs with
    | nil => intro s0; rfl
    | cons sub rest ih =>
      intro s0
      simp [runLane, ih]

/-- Witness for C8: the pdf.js cancellation message is swallowed, a network
failure message is forwarded, and a lane with one failing and one valid
submission produces a result for both. -/
theorem onRenderError_policy_witness :
    onRenderError "RenderingCancelledException: Rendering cancelled, page 1" = none
    ∧ onRenderError "Failed to fetch" = some "Failed to fetch"
    ∧ ((runLane (some 3) [⟨1, EngineOutcome.failure "boom"⟩, ⟨2, EngineOutcome.success⟩]
          laneInit).2).length = 2 :=
  ⟨onRenderError_policy.1 _ (by decide),
   onRenderError_policy.2.1 _ (by decide),
   onRenderError_policy.2.2 (some 3) _ laneInit⟩

/-! ### C3 — throttled viewport publish -/

lemma syncView_scheduled_noop (me : String) (wr : Bool) (intr vs : Size)
    (c : Camera) (s : SyncViewState) (h : s.scheduled.isSome = true) :
    syncView me wr intr vs c s = s := by
  obtain ⟨sched, pub⟩ := s
  cases sched with
  | some v => rfl
  | none => simp at h

lemma foldl_syncView_scheduled (me : String) (wr : Bool) (intr vs : Size)
    (cams : List Camera) :
    ∀ s : SyncViewState, s.scheduled.isSome = true →
      cams.foldl (fun st c => syncView me wr intr vs c st) s = s := by
  induction cams with
  | nil => intro s _; rfl
  | cons c rest ih =>
    intro s h
    rw [List.foldl_cons, syncView_scheduled_noop me wr intr vs c s h]
    exact ih s h

/-- C3 counterexample: two local camera changes inside one 50 ms window
produce exactly one publish, but the published rectangle is computed from the
*first* camera of the window (the `setTimeout` closure captures the values
computed when the window opened), not from the latest one: with cameras
centered at 0 and then at 10, the publish carries origin -50, while the
latest camera's rectangle would have origin -40. -/
theorem syncView_throttle_cex :
    (windowRun "me" true ⟨100, 100⟩ ⟨100, 100⟩
        [⟨0, 0, 1⟩, ⟨10, 0, 1⟩] ⟨none, []⟩).published
      = [⟨"me", -50, -50, 100, 100⟩]
    ∧ computeViewRect "me" ⟨100, 100⟩ ⟨100, 100⟩ ⟨10, 0, 1⟩
      ≠ (⟨"me", -50, -50, 100, 100⟩ : ViewRect) := by
  constructor
  · norm_num [windowRun, syncView, computeViewRect, timerFire, List.foldl,
      ViewRect.mk.injEq]
  · norm_num [computeViewRect, ViewRect.mk.injEq]

/-- C3 (amended): for every sequence of local camera changes arriving within
one 50 ms throttle window (intrinsic size non-degenerate, peer writable),
exactly one outbound publish occurs for that window, and it carries the
rectangle computed from the *first* camera value of the window; the later
camera changes in the window are dropped by the `throttleSyncView > 0` early
return, not coalesced. -/
theorem syncView_throttle_first (me : String) (intr vs : Size) (c : Camera)
    (cams : List Camera) (s0 : SyncViewState)
    (h0 : s0.scheduled = none) (hw : intr.width ≠ 0) (hh : intr.height ≠ 0) :
    windowRun me true intr vs (c :: cams) s0
      = ⟨none, s0.published ++ [computeViewRect me intr vs c]⟩ := by
  obtain ⟨sched, pub⟩ := s0
  cases h0
  have h1 : syncView me true intr vs c ⟨none, pub⟩
      = ⟨some (computeViewRect me intr vs c), pub⟩ := by
    unfold syncView
    rw [if_pos ⟨hw, hh, rfl⟩]
  unfold windowRun
  rw [List.foldl_cons, h1,
    foldl_syncView_scheduled me true intr vs cams
      ⟨some (computeViewRect me intr vs c), pub⟩ rfl]
  rfl

/-- Witness for C3's amended theorem: one camera change followed by another
inside the window publishes exactly the first camera's rectangle. -/
theorem syncView_throttle_first_witness :
    windowRun "me" true ⟨100, 100⟩ ⟨100, 100⟩
        [⟨0, 0, 1⟩, ⟨10, 0, 1⟩] ⟨none, []⟩
      = ⟨none, [] ++ [computeViewRect "me" ⟨100, 100⟩ ⟨100, 100⟩ ⟨0, 0, 1⟩]⟩ :=
  syncView_throttle_first "me" ⟨100, 100⟩ ⟨100, 100⟩ ⟨0, 0, 1⟩
    [⟨10, 0, 1⟩] ⟨none, []⟩ rfl (by norm_num) (by norm_num)

/-! ### C9 — applying a remote viewport state -/

/-- C9 counterexample: a remote `ViewportState` whose `ownerId` differs from
the local peer's id is *not* applied when its stored rectangle has
non-positive width: the guard also requires `width > 0 && height > 0`, so
\"applied iff ownerId differs (or force)\" fails. -/
theorem syncViewFromRemote_cex :
    syncViewFromRemote "a" ⟨"b", 0, 0, 0, 1⟩ false = none
    ∧ ("b" : String) ≠ "a" := by
  constructor
  · decide
  · decide

/-- C9 (amended): a received remote `ViewportState` is applied to the local
camera if and only if the stored rectangle has positive width and height and
either a force-reapply is requested or the `ownerId` differs from the local
peer's id (force bypasses only the self-echo check, not the size check); when
it is applied, the camera is moved to contain exactly the stored rectangle. -/
theorem syncViewFromRemote_policy :
    (∀ (me : String) (st : ViewRect) (force : Bool),
        (syncViewFromRemote me st force).isSome = true
          ↔ ((force = true ∨ st.uid ≠ me) ∧ 0 < st.width ∧ 0 < st.height))
    ∧ (∀ (me : String) (st : ViewRect) (force : Bool) (r : ContainRect),
        syncViewFromRemote me st force = some r →
          r = ⟨st.originX, st.originY, st.width, st.height⟩) := by
  constructor
  · intro me st force
    unfold syncViewFromRemote
    split
    · next h => simpa using h
    · next h => simpa using h
  · intro me st force r h
    unfold syncViewFromRemote at h
    split at h
    · exact (Option.some.inj h).symm
    · cases h

/-- Witness for C9's amended theorem: a self-echo (`ownerId` equal to the
local id) with a positive rectangle is applied when `force = true`, and the
applied rectangle is the stored one. -/
theorem syncViewFromRemote_policy_witness :
    (syncViewFromRemote "me" ⟨"me", 1, 2, 3, 4⟩ true).isSome = true
    ∧ (⟨1, 2, 3, 4⟩ : ContainRect)
        = ⟨(⟨"me", 1, 2, 3, 4⟩ : ViewRect).originX,
           (⟨"me", 1, 2, 3, 4⟩ : ViewRect).originY,
           (⟨"me", 1, 2, 3, 4⟩ : ViewRect).width,
           (⟨"me", 1, 2, 3, 4⟩ : ViewRect).height⟩ :=
  ⟨(syncViewFromRemote_policy.1 "me" ⟨"me", 1, 2, 3, 4⟩ true).mpr
      (by refine ⟨Or.inl rfl, ?_, ?_⟩ <;> norm_num),
   syncViewFromRemote_policy.2 "me" ⟨"me", 1, 2, 3, 4⟩ true ⟨1, 2, 3, 4⟩ (by decide)⟩

end PDFjs
